import Mathlib

/-!
Shallow embedding of `Project-G-Org/ts-common`.

JavaScript values that may be `null` are modelled as `Option` values, with
`none` standing for the absence sentinel `null`.  The `Result` class of
`src/utils/result.ts` stores two private fields `_data` and `_error`; its
constructor is private, so every instance originates from the static
factories `succeed`, `failed`, `runCatching` (and, per the spec, `pending`,
which is absent from src/utils/result.ts although `src/unnamed/part_000`
calls it).

Throwing and catching are modelled with `Except`: a `try` body is an
`Except` computation, a `catch` clause intercepts its `error` branch.
-/

universe u v w

/-- Embedding of the `Result` class of src/utils/result.ts: two private
fields `_data` and `_error`, each possibly `null` (`none`). -/
structure Result (δ : Type u) (ε : Type v) where
  mk ::
  _data : Option δ
  _error : Option ε
deriving Repr, DecidableEq

namespace Result

variable {δ : Type u} {ε : Type v}

/-- `static succeed(data) { return new Result(data, null); }`
(src/utils/result.ts lines 64-66). -/
def succeed (data : Option δ) : Result δ ε :=
  ⟨data, none⟩

/-- `static failed(error) { return new Result(null, error); }`
(src/utils/result.ts lines 78-82). -/
def failed (error : Option ε) : Result δ ε :=
  ⟨none, error⟩

/-- Modelled from the spec: `Result.pending()` is called by the hook in
src/unnamed/part_000 (line 108) but no `pending` factory appears in
src/utils/result.ts.  The spec says "`pending()` → Outcome in Pending
state. Never fails." and "Pending: no data, no error.", so the Pending
state is the instance with both fields absent. -/
def pending : Result δ ε :=
  ⟨none, none⟩

/-- `get data()` accessor: returns `this._data`
(src/utils/result.ts lines 169-171). -/
def data (r : Result δ ε) : Option δ :=
  r._data

/-- `get error()` accessor: returns `this._error`
(src/utils/result.ts lines 182-184). -/
def error (r : Result δ ε) : Option ε :=
  r._error

/-- `get isSuccess() { return this._error === null; }`
(src/utils/result.ts lines 195-197). -/
def isSuccess (r : Result δ ε) : Bool :=
  r._error.isNone

/-- `get isError() { return this._error !== null; }`
(src/utils/result.ts lines 208-210). -/
def isError (r : Result δ ε) : Bool :=
  r._error.isSome

/-- Modelled from the spec: no `isPending` accessor appears in
src/utils/result.ts; the spec lists it among the read-only accessors and
defines the Pending state as "no data, no error", so `isPending` holds
exactly when both fields are absent. -/
def isPending (r : Result δ ε) : Bool :=
  r._data.isNone && r._error.isNone

/-- `match(onSuccess, onError)` of src/utils/result.ts lines 130-137:
`this.isSuccess ? onSuccess(this._data) : onError(this._error)`.
The source method takes exactly two callbacks.  (Named `matchOn` because
`match` is reserved in Lean.) -/
def matchOn {τ : Type w} (r : Result δ ε)
    (onSuccess : Option δ → τ) (onError : Option ε → τ) : τ :=
  if r.isSuccess then onSuccess r._data else onError r._error

/-- Return type of `unwrap`: the union
`{ data; error: null } | { data: null; error }` collapsed to one record of
two possibly-absent fields. -/
structure Unwrapped (δ : Type u) (ε : Type v) where
  data : Option δ
  error : Option ε
deriving Repr, DecidableEq

/-- `unwrap()` of src/utils/result.ts lines 150-158:
if `this._data !== null` return `{data: this._data, error: null}`, else
return `{data: null, error: this._error}`. -/
def unwrap (r : Result δ ε) : Unwrapped δ ε :=
  if r._data.isSome then
    { data := r._data, error := none }
  else
    { data := none, error := r._error }

/-- `static runCatching(fn)` of src/utils/result.ts lines 104-113.  The
argument `fn` is a computation that either returns a (possibly null)
value or throws a fault, modelled as `Except φ (Option δ)`.  The `try`
body runs `fn` and wraps the returned value with `succeed`; the `catch`
clause wraps the caught fault with `failed`. -/
def runCatchingE {φ : Type} (fn : Except φ (Option δ)) :
    Except φ (Result δ φ) :=
  match Except.map (fun result => Result.succeed result) fn with
  | .ok r => .ok r
  | .error e => .ok (Result.failed (some e))

end Result

/-! ## src/utils/requestFactory.ts -/

/-- A decoded response body: the failure path destructures a `message`
field, the success path a `data` field (spec §3, RawResponse). -/
structure JsonBody (μ : Type) (δ : Type u) where
  message : μ
  data : δ
deriving Repr, DecidableEq

/-- The raw `Response` consumed by the adapter: a success flag `ok`, a
numeric `status`, and a body-decoding capability `json` that either
yields the decoded body or raises a fault `φ` (a rejected
`response.json()` promise). -/
structure RawResponse (φ μ : Type) (δ : Type u) where
  ok : Bool
  status : Nat
  json : Except φ (JsonBody μ δ)
deriving Repr

/-- The values thrown inside, and returned by, the adapter of
src/utils/requestFactory.ts: `NotFoundError` and `PaymentRequiredError`
(classes extending `Error`, each built from the decoded message), the
plain `new Error("Response's not okay")` of the fallback branch, and
any other fault (a transport throw/rejection or a body-decoding
rejection), modelled as `fault`. -/
inductive RequestError (φ μ : Type) where
  | notFoundError (msg : μ)
  | paymentRequiredError (msg : μ)
  | errorMsg (s : String)
  | fault (f : φ)
deriving Repr, DecidableEq

/-- Diagnostic `console.error` lines emitted by the adapter:
`"Response's not okay: " + JSON.stringify(data)` in the fallback branch
(line 56) and `"Request failed: " + error` in the generic catch branch
(line 72). -/
inductive ConsoleLine (φ μ : Type) where
  | responseNotOkay (msg : μ)
  | requestFailed (e : RequestError φ μ)
deriving Repr, DecidableEq

variable {δ : Type u} {φ μ π : Type}

/-- The `try` body of the adapter (src/utils/requestFactory.ts lines
41-62), paired with the console lines it emits.  `t args` models
`await request(args)`: `.error f` covers both a synchronous throw and a
promise rejection.  On `!response.ok` the body is decoded first, then
status 404 throws `NotFoundError(message)`, status 402 throws
`PaymentRequiredError(message)`, and otherwise the message is logged and
`new Error("Response's not okay")` is thrown; on `response.ok` the
`data` field is decoded and returned through `Result.succeed`. -/
def tryBody (t : π → Except φ (RawResponse φ μ δ)) (args : π) :
    Except (RequestError φ μ) (Result δ (RequestError φ μ)) ×
      List (ConsoleLine φ μ) :=
  match t args with
  | .error f => (.error (.fault f), [])
  | .ok response =>
    if !response.ok then
      match response.json with
      | .error f => (.error (.fault f), [])
      | .ok body =>
        if response.status = 404 then
          (.error (.notFoundError body.message), [])
        else if response.status = 402 then
          (.error (.paymentRequiredError body.message), [])
        else
          (.error (.errorMsg "Response\x27s not okay"),
            [.responseNotOkay body.message])
    else
      match response.json with
      | .error f => (.error (.fault f), [])
      | .ok body => (.ok (Result.succeed (some body.data)), [])

/-- The `catch` clause of the adapter (src/utils/requestFactory.ts lines
63-74): a caught `NotFoundError` or `PaymentRequiredError` is returned
through `Result.failed` as-is; any other caught value is logged as
`"Request failed: "` and likewise returned through `Result.failed`. -/
def catchClause (e : RequestError φ μ) :
    Result δ (RequestError φ μ) × List (ConsoleLine φ μ) :=
  match e with
  | .notFoundError m => (Result.failed (some (.notFoundError m)), [])
  | .paymentRequiredError m =>
      (Result.failed (some (.paymentRequiredError m)), [])
  | e => (Result.failed (some e), [.requestFailed e])

/-- The async function produced by `requestFactory`, seen as an `Except`
computation so that an uncaught throw would surface as `.error`: the
`try` body's `.error` branch is intercepted by the `catch` clause, whose
result is returned normally. -/
def requestFactoryE (t : π → Except φ (RawResponse φ μ δ)) (args : π) :
    Except (RequestError φ μ)
      (Result δ (RequestError φ μ) × List (ConsoleLine φ μ)) :=
  match tryBody t args with
  | (.ok r, l) => .ok (r, l)
  | (.error e, l) =>
      let caught := (catchClause e : Result δ (RequestError φ μ) × _)
      .ok (caught.1, l ++ caught.2)

/-- The Result (and console output) the adapter's promise resolves with. -/
def requestFactoryRun (t : π → Except φ (RawResponse φ μ δ)) (args : π) :
    Result δ (RequestError φ μ) × List (ConsoleLine φ μ) :=
  match tryBody t args with
  | (.ok r, l) => (r, l)
  | (.error e, l) =>
      let caught := (catchClause e : Result δ (RequestError φ μ) × _)
      (caught.1, l ++ caught.2)

/-! ## src/unnamed/part_000: `useRequestFactory` single-fire gate -/

/-- The per-subscription state of the `useRequestFactory` hook
(src/unnamed/part_000 lines 101-133): the `hasExecuted` ref initialised
to `false`, the `result` state slot initialised to `Result.pending()`,
and a count of network requests issued (for stating the single-fire
property). -/
structure GateState (δ : Type u) (ε : Type v) where
  started : Bool
  slot : Result δ ε
  calls : Nat
deriving Repr, DecidableEq

/-- The state at subscription start: `useRef(false)`,
`useState(Result.pending())`, no request issued yet. -/
def GateState.init {ε : Type v} : GateState δ ε :=
  ⟨false, Result.pending, 0⟩

/-- One activation of `executeRequest` run to completion, where `r` is
the terminal Result the underlying adapter call resolves with: if
`hasExecuted.current` is true it returns at once; otherwise it sets the
flag, issues the request (counted), and publishes into the slot via the
two-argument `match` of src/utils/result.ts —
`setResult(Result.succeed(data))` on the success branch,
`setResult(Result.failed(error))` on the error branch.  (The hook also
passes a third, throwing callback at lines 123-125, which the
two-parameter `match` never receives.) -/
def activate {ε : Type v} (r : Result δ ε) (s : GateState δ ε) :
    GateState δ ε :=
  if s.started then s
  else
    { started := true
      slot := r.matchOn (fun d => Result.succeed d) (fun e => Result.failed e)
      calls := s.calls + 1 }

/-! ## Theorems about the claims -/

/-- Claim C1: the `pending()` factory (modelled from the spec, as it is
absent from src/utils/result.ts while called by src/unnamed/part_000)
returns an Outcome with `isPending` true and both `data` and `error`
absent. -/
theorem c1_pending_state {δ : Type u} {ε : Type v} :
    (Result.pending : Result δ ε).isPending = true ∧
    (Result.pending : Result δ ε).data = none ∧
    (Result.pending : Result δ ε).error = none :=
  ⟨rfl, rfl, rfl⟩

/-- Claim C7: for every error value `e` (a non-null value of the error
type), `failed(e)` satisfies `isError == true` and `error == e`. -/
theorem c7_failed_is_error {δ : Type u} {ε : Type v} (e : ε) :
    (Result.failed (some e) : Result δ ε).isError = true ∧
    (Result.failed (some e) : Result δ ε).error = some e :=
  ⟨rfl, rfl⟩

/-- Claim C9: for every value `v`, `succeed(v)` satisfies
`isSuccess == true`, `isError == false`, `isPending == false`, and
`data == v`. -/
theorem c9_succeed_state {δ : Type u} {ε : Type v} (v : δ) :
    (Result.succeed (some v) : Result δ ε).isSuccess = true ∧
    (Result.succeed (some v) : Result δ ε).isError = false ∧
    (Result.succeed (some v) : Result δ ε).isPending = false ∧
    (Result.succeed (some v) : Result δ ε).data = some v :=
  ⟨rfl, rfl, rfl, rfl⟩

/-- Claim C10: for every Result, `isSuccess` and `isError` are exact
complements, both determined solely by whether the stored error is the
sentinel, and `failed(null)` yields `isError == false`,
`isSuccess == true`. -/
theorem c10_success_error_complements {δ : Type u} {ε : Type v}
    (d : Option δ) (e : Option ε) :
    (Result.mk d e).isSuccess = !(Result.mk d e).isError ∧
    (Result.mk d e).isSuccess = e.isNone ∧
    (Result.mk d e).isError = e.isSome ∧
    (Result.failed (none : Option ε) : Result δ ε).isError = false ∧
    (Result.failed (none : Option ε) : Result δ ε).isSuccess = true := by
  cases e <;>
    simp [Result.isSuccess, Result.isError, Result.failed]

/-- Claim C6: `unwrap()` never returns a record with both `data` and
`error` set, and never one with neither set unless the Result is
pending; in particular `succeed(null)` is exactly the pending-shaped
instance, so the invariant holds for it. -/
theorem c6_unwrap_discriminated {δ : Type u} {ε : Type v}
    (d : Option δ) (e : Option ε) :
    ((Result.mk d e).unwrap.data.isSome &&
      (Result.mk d e).unwrap.error.isSome) = false ∧
    ((Result.mk d e).unwrap.data.isNone &&
      (Result.mk d e).unwrap.error.isNone &&
      !(Result.mk d e).isPending) = false ∧
    (Result.succeed (none : Option δ) : Result δ ε).isPending = true := by
  cases d <;> cases e <;>
    simp [Result.unwrap, Result.isPending, Result.succeed]

/-- Claim C8: `runCatching(fn)` yields `succeed(result)` when `fn`
returns `result` normally, `failed(fault)` when `fn` raises `fault`, and
the computation never re-raises: seen as an `Except` computation it is
`.ok` for every `fn`. -/
theorem c8_runCatching_tri {δ : Type u} {φ : Type}
    (v : Option δ) (f : φ) (fn : Except φ (Option δ)) :
    Result.runCatchingE (Except.ok v) =
      Except.ok (Result.succeed v : Result δ φ) ∧
    Result.runCatchingE (Except.error f) =
      Except.ok (Result.failed (some f) : Result δ φ) ∧
    (Result.runCatchingE fn).isOk = true := by
  refine ⟨rfl, rfl, ?_⟩
  cases fn <;> rfl

/-- Claim C5 (evidence of the divergence): the two-parameter `match` of
src/utils/result.ts tests `isSuccess` (stored error equals the
sentinel), which is true for the Pending instance, so a Pending Outcome
is routed to the `onSuccess` branch — not to a pending branch (the
method has no third parameter) and not to `onError(absent)`. -/
theorem c5_match_routes_pending_to_success :
    (Result.pending : Result Nat Nat).matchOn
      (fun _ => "success branch") (fun _ => "error branch") =
      "success branch" ∧
    (Result.pending : Result Nat Nat).isSuccess = true :=
  ⟨rfl, rfl⟩

/-- Claim C2: for a raw response with success flag false (whose body
decodes), the adapter fails with `NotFoundError(message)` on status 404,
`PaymentRequiredError(message)` on status 402, and otherwise with the
plain error whose value is the fixed string "Response's not okay", the
decoded message appearing only in the console log. -/
theorem c2_status_classification
    (t : π → Except φ (RawResponse φ μ δ)) (args : π)
    (resp : RawResponse φ μ δ) (body : JsonBody μ δ)
    (ht : t args = Except.ok resp) (hok : resp.ok = false)
    (hj : resp.json = Except.ok body) :
    (resp.status = 404 →
      requestFactoryRun t args =
        (Result.failed (some (RequestError.notFoundError body.message)),
          [])) ∧
    (resp.status = 402 →
      requestFactoryRun t args =
        (Result.failed
            (some (RequestError.paymentRequiredError body.message)),
          [])) ∧
    (resp.status ≠ 404 → resp.status ≠ 402 →
      requestFactoryRun t args =
        (Result.failed (some (RequestError.errorMsg "Response\x27s not okay")),
          [ConsoleLine.responseNotOkay body.message,
            ConsoleLine.requestFailed
              (RequestError.errorMsg "Response\x27s not okay")])) := by
  refine ⟨fun h404 => ?_, fun h402 => ?_, fun h404 h402 => ?_⟩
  · simp [requestFactoryRun, tryBody, ht, hok, hj, h404, catchClause]
  · simp [requestFactoryRun, tryBody, ht, hok, hj, h402, catchClause]
  · simp [requestFactoryRun, tryBody, ht, hok, hj, h404, h402, catchClause]

/-- Witness for C2: a transport resolving with
`{ok: false, status: 404, body: {message: "missing"}}` yields
`failed(NotFoundError("missing"))`. -/
theorem c2_status_classification_witness :
    requestFactoryRun
        (fun (_ : Unit) =>
          Except.ok
            ({ ok := false, status := 404,
               json := Except.ok { message := "missing", data := 0 } } :
              RawResponse Nat String Nat))
        () =
      (Result.failed (some (RequestError.notFoundError "missing")), []) :=
  (c2_status_classification _ () _ _ rfl rfl rfl).1 rfl

/-- Claim C3: the adapter never lets a fault escape: as an `Except`
computation it always resolves `.ok` with the value `requestFactoryRun`
describes, and both a transport fault (synchronous throw or rejection)
and a body-decoding fault are converted into a Failure outcome wrapping
the fault through the generic catch branch (which also logs it). -/
theorem c3_no_fault_escapes
    (t : π → Except φ (RawResponse φ μ δ)) (args : π) :
    (requestFactoryE t args).isOk = true ∧
    requestFactoryE t args = Except.ok (requestFactoryRun t args) ∧
    (∀ f, t args = Except.error f →
      requestFactoryRun t args =
        (Result.failed (some (RequestError.fault f)),
          [ConsoleLine.requestFailed (RequestError.fault f)])) ∧
    (∀ resp f, t args = Except.ok resp → resp.json = Except.error f →
      requestFactoryRun t args =
        (Result.failed (some (RequestError.fault f)),
          [ConsoleLine.requestFailed (RequestError.fault f)])) := by
  refine ⟨?_, ?_, fun f hf => ?_, fun resp f h1 h2 => ?_⟩
  · rcases htb : tryBody t args with ⟨fst, l⟩
    cases fst <;> simp [requestFactoryE, htb, Except.isOk, Except.toBool]
  · rcases htb : tryBody t args with ⟨fst, l⟩
    cases fst <;> simp [requestFactoryE, requestFactoryRun, htb]
  · simp [requestFactoryRun, tryBody, hf, catchClause]
  · cases hok : resp.ok <;>
      simp [requestFactoryRun, tryBody, h1, h2, hok, catchClause]

/-- Witness for C3: a transport that rejects with fault `7` yields
`failed(fault 7)` with the fault logged. -/
theorem c3_no_fault_escapes_witness :
    requestFactoryRun
        (fun (_ : Unit) =>
          (Except.error 7 : Except Nat (RawResponse Nat String Nat))) () =
      (Result.failed (some (RequestError.fault 7)),
        [ConsoleLine.requestFailed (RequestError.fault 7)]) :=
  (c3_no_fault_escapes _ ()).2.2.1 7 rfl

/-- Claim C4: starting from the initial gate state, the first activation
sets the started flag and issues exactly one request; any activation of
a state whose started flag is set — in particular a second activation —
changes nothing: no new network call, no overwrite of the result slot,
the same terminal Outcome remains published. -/
theorem c4_single_fire {ε : Type v} (r r2 : Result δ ε)
    (s : GateState δ ε) :
    (activate r GateState.init).started = true ∧
    (activate r GateState.init).calls = 1 ∧
    activate r2 { s with started := true } = { s with started := true } ∧
    activate r2 (activate r GateState.init) = activate r GateState.init := by
  refine ⟨rfl, rfl, rfl, rfl⟩
